import Mathlib

/-!
Verification development for the olx-scrapy spider
(olx_scraper/spiders/olxspider.py and olx_scraper/spiders/playwright_helpers.py).

The Python code is shallowly embedded:
* the markup queries that parsel performs are abstracted into structures whose
  fields hold the query results (an Option String for a .get() call, a
  List String for a .getall() call), and the pure post-processing that the
  spider performs on those results is translated literally;
* the Playwright page interactions are embedded as functions from the
  environment (which bounded waits succeed, whether the block interstitial is
  present, the markup content) to a trace of performed effects plus an outcome
  (returned normally, or which exception escaped);
* datetime.now() is passed in explicitly as a TodayDate value.
-/

/-- Python truthiness of an Optional[str]: None and the empty string are falsy.
Used for every `if x` / `x if x else None` test in olxspider.py. -/
def truthy : Option String → Bool
  | none => false
  | some s => !(s == "")

/-- Python " ".join(l). -/
def joinSp (l : List String) : String := String.intercalate " " l

/-- Python str.strip() with no argument: remove leading and trailing
whitespace. -/
def pyStrip (s : String) : String :=
  String.mk (((s.toList.dropWhile Char.isWhitespace).reverse.dropWhile
    Char.isWhitespace).reverse)

/- ===== selector constants (olxspider.py lines 22-50) ===== -/

def ADS_BLOCK_SELECTOR : String := "div[data-testid=l-card]"
def AD_TITLE_URL_SELECTOR : String := " div[data-cy=ad-card-title] a"
def AD_TITLE_SELECTOR : String := " div[data-cy=ad-card-title] a > h4"
def AD_PRICE_SELECTOR : String := " p[data-testid=ad-price]"
def AD_PUB_DATE_SELECTOR : String := "span[data-cy=ad-posted-at]"
def BTN_SHOW_PHONE_SELECTOR : String := "button[data-testid=show-phone]"
def CONTACT_PHONE_SELECTOR : String := "a[data-testid=contact-phone]"
def USER_NAME_SELECTOR : String := "a[data-testid=user-profile-link] h4"
def DESCRIPTION_PARTS_SELECTOR : String := "div[data-cy=ad_description] > div"
def FOOTER_BAR_SELECTOR : String := "div[data-testid=ad-footer-bar-section]"

/- ===== the item (items.py, OlxScraperItem) =====
All scalar fields are Option String; none means the scrapy field holds None or
was never located (the spec treats the two identically: both mean not found). -/

structure OlxScraperItem where
  title : Option String := none
  price : Option String := none
  url : Option String := none
  ad_tags : List String := []
  user_name : Option String := none
  user_score : Option String := none
  user_registration : Option String := none
  user_last_seen : Option String := none
  announcement_id : Option String := none
  announcement_view_counter : Option String := none
  location : Option String := none
  ad_pub_date : Option String := none
  description : Option String := none
  img_src_list : List String := []
  phone_number : Option String := none
deriving DecidableEq, Repr

/- ===== list page (OlxSpider.parse, olxspider.py lines 89-144) ===== -/

/-- One ad card of the list page, holding the results of the three queries the
spider runs against it: href of the title anchor, title text, price text
(olxspider.py lines 96-100).  A query that matches nothing yields none; a
matching but empty attribute yields some "". -/
structure AdCard where
  href : Option String := none
  title : Option String := none
  price : Option String := none
deriving DecidableEq, Repr

/-- The body of the per-card loop of OlxSpider.parse (olxspider.py lines
101-110): the card is kept only when `ad_link and ad_title` is truthy, and the
kept item gets the stripped title, the stripped price when the price is truthy
(else None), and the stripped resolved URL.  `urljoin` stands for
response.urljoin, i.e. resolution of the href against the page URL. -/
def cardToItem (urljoin : String → String) (card : AdCard) : Option OlxScraperItem :=
  if truthy card.href && truthy card.title then
    some { title := some (pyStrip (card.title.getD ""))
           price := if truthy card.price then some (pyStrip (card.price.getD "")) else none
           url := some (pyStrip (urljoin (card.href.getD ""))) }
  else
    none

/-- OlxSpider.parse on the list of cards the ADS_BLOCK_SELECTOR query returned:
each card is processed independently; cards failing the link-and-title test are
skipped without any error (the function is total).  The spider then issues one
detail request per produced item; we return the items. -/
def parse (urljoin : String → String) (cards : List AdCard) : List OlxScraperItem :=
  cards.filterMap (cardToItem urljoin)

/- ===== detail page (extraction phase of OlxSpider.parse_ad, lines 150-206) ===== -/

/-- One detail page, holding the results of the markup queries of
OlxSpider.parse_ad (olxspider.py lines 153-190), before any post-processing:
* scalar .get() calls become Option String fields,
* .getall() calls become List String fields,
* the photo blocks become one List String of img src values per matched block
  (the code loops over the blocks and extends one list with each block's srcs),
* location_parts_q holds the text nodes found under the sibling of the map
  overlay element (the css("svg + div *::text").getall() result). -/
structure DetailPage where
  ad_pub_date_q : Option String := none
  user_name_q : Option String := none
  user_score_q : Option String := none
  user_registration_q : Option String := none
  user_last_seen_q : Option String := none
  location_parts_q : List String := []
  photo_blocks_q : List (List String) := []
  ad_tags_q : List String := []
  description_parts_q : List String := []
  ad_id_q : Option String := none
  ad_view_counter_q : Option String := none
deriving DecidableEq, Repr

/-- The pure field-assembly phase of OlxSpider.parse_ad (olxspider.py lines
166-206): every field is computed from its own query result only.
Literal translation:
* location = " ".join(l.strip() for l in location_parts if l), stored stripped
  when truthy else None (lines 169, 203);
* img_src_list = concatenation of the img srcs of all photo blocks (174-177);
* description = " ".join(p.strip() for p in description_parts if p), stored
  unchanged when truthy else None (187, 205);
* user_name and user_registration are stripped when truthy (193, 195-197);
* ad_pub_date, user_last_seen and announcement_id are stored verbatim
  (192, 198, 199); user_score and the view counter are stored verbatim when
  truthy else None (194, 200-202); ad_tags is stored as returned (204). -/
def extract_fields (pg : DetailPage) (item : OlxScraperItem) : OlxScraperItem :=
  let location := joinSp ((pg.location_parts_q.filter (fun l => !(l == ""))).map pyStrip)
  let img_urls_list := pg.photo_blocks_q.flatten
  let description := joinSp ((pg.description_parts_q.filter (fun p => !(p == ""))).map pyStrip)
  { item with
    ad_pub_date := pg.ad_pub_date_q
    user_name := if truthy pg.user_name_q then some (pyStrip (pg.user_name_q.getD "")) else none
    user_score := if truthy pg.user_score_q then pg.user_score_q else none
    user_registration :=
      if truthy pg.user_registration_q then some (pyStrip (pg.user_registration_q.getD "")) else none
    user_last_seen := pg.user_last_seen_q
    announcement_id := pg.ad_id_q
    announcement_view_counter := if truthy pg.ad_view_counter_q then pg.ad_view_counter_q else none
    location := if location == "" then none else some (pyStrip location)
    ad_tags := pg.ad_tags_q
    description := if description == "" then none else some description
    img_src_list := img_urls_list }

/- ===== date normalizer (OlxSpider.parse_date, olxspider.py lines 241-273) ===== -/

/-- The value of datetime.now() at the moment parse_date runs.  datetime
guarantees 1 <= month <= 12; theorems about the Today branch carry that
guarantee as the hypothesis that months_uk finds the month. -/
structure TodayDate where
  day : Nat
  month : Nat
  year : Nat
deriving DecidableEq, Repr

/-- The months_uk dictionary (olxspider.py lines 245-258), as a lookup. -/
def months_uk : Nat → Option String
  | 1 => some "січня"
  | 2 => some "лютого"
  | 3 => some "березня"
  | 4 => some "квітня"
  | 5 => some "травня"
  | 6 => some "червня"
  | 7 => some "липня"
  | 8 => some "серпня"
  | 9 => some "вересня"
  | 10 => some "жовтня"
  | 11 => some "листопада"
  | 12 => some "грудня"
  | _ => none

/-- months_uk.values() in iteration order. -/
def months_uk_values : List String :=
  ["січня", "лютого", "березня", "квітня", "травня", "червня",
   "липня", "серпня", "вересня", "жовтня", "листопада", "грудня"]

/-- Membership of the character class [а-яіїє] of the date pattern
(olxspider.py line 263). -/
def isUkChar (c : Char) : Bool :=
  (Char.ofNat 0x430 ≤ c && c ≤ Char.ofNat 0x44F) || c == Char.ofNat 0x456
    || c == Char.ofNat 0x457 || c == Char.ofNat 0x454

/-- str.zfill(2) on a nonempty digit string: left-pad with zeros to width 2. -/
def zfill2 (s : String) : String :=
  if s.length < 2 then String.mk (List.replicate (2 - s.length) '0') ++ s else s

/-- strftime %d: the day zero-padded to two digits. -/
def pad2Nat (n : Nat) : String := if n < 10 then "0" ++ toString n else toString n

/-- today.strftime(f"%d {months_uk[today.month]} %Y р.") (olxspider.py line
260).  months_uk[today.month] is total in Python because datetime months are
1..12; the getD branch is unreachable for such months. -/
def strftimeToday (t : TodayDate) : String :=
  pad2Nat t.day ++ " " ++ (months_uk t.month).getD "" ++ " " ++ toString t.year ++ " р."

/-- str.startswith, on character lists: beginsWith pat cs is true when pat is
an initial segment of cs. -/
def beginsWith : List Char → List Char → Bool
  | [], _ => true
  | _ :: _, [] => false
  | p :: ps, c :: cs => p == c && beginsWith ps cs

/-- re.match of the anchored-at-start pattern (\d{1,2}) ([а-яіїє]+) (\d{4}) р\.
(olxspider.py lines 262-264), returning the three captured groups.
The pattern's three character classes (\d, [а-яіїє], the literal spaces) are
pairwise disjoint, so the backtracking regex is equivalent to maximal munch:
* the day group is the maximal digit run at the start; a run of length 0 or of
  3+ can never be repaired by backtracking (the following literal space would
  have to match a digit), so it fails;
* the month group is the maximal [а-яіїє] run after the first space (shrinking
  it would put a class character where the second literal space must match);
* the year group is exactly 4 digits followed by the literal " р."; a fifth
  digit or a short digit run fails just as in the regex.
re.match only anchors at the start, so arbitrary text may follow "р.".
\d is modelled as the ASCII digits. -/
def reStep3 (ms : List Char) (r3 : List Char) : Option (List Char × List Char) :=
  match r3 with
  | c :: r4 =>
    if c == ' ' then
      if (r4.take 4).length = 4 && (r4.take 4).all Char.isDigit then
        match r4.drop 4 with
        | a :: b :: d :: _ =>
          if a == ' ' && b == 'р' && d == '.' then some (ms, r4.take 4) else none
        | _ => none
      else none
    else none
  | [] => none

/-- Continuation of matchDateRe after the day group: the string right after the
maximal digit run must start with a space; then the month group is the maximal
isUkChar run, which must be nonempty. -/
def reStep2 (r1 : List Char) : Option (List Char × List Char) :=
  match r1 with
  | c :: r2 =>
    if c == ' ' then
      if (r2.takeWhile isUkChar).length = 0 then none
      else reStep3 (r2.takeWhile isUkChar) (r2.dropWhile isUkChar)
    else none
  | [] => none

/-- The full pattern match: day group (1 or 2 digits), then reStep2.  Returns
(day, month, year) captures, or none when re.match returns None. -/
def matchDateRe (cs : List Char) : Option (List Char × List Char × List Char) :=
  if (cs.takeWhile Char.isDigit).length = 0 || 2 < (cs.takeWhile Char.isDigit).length then none
  else
    match reStep2 (cs.dropWhile Char.isDigit) with
    | some (ms, ys) => some (cs.takeWhile Char.isDigit, ms, ys)
    | none => none

/-- The month-validation and zero-padding step applied to the three captured
groups (olxspider.py lines 267-272). -/
def dateFromGroups (g : List Char × List Char × List Char) : Except String String :=
  if String.mk g.2.1 ∈ months_uk_values then
    Except.ok (zfill2 (String.mk g.1) ++ " " ++ String.mk g.2.1 ++ " "
      ++ String.mk g.2.2 ++ " р.")
  else
    Except.error ("Некоректний місяць у даті: " ++ String.mk g.2.1)

/-- OlxSpider.parse_date (olxspider.py lines 241-273).  ValueError is embedded
as Except.error carrying the formatted message. -/
def parse_date (today : TodayDate) (input_str : String) : Except String String :=
  if beginsWith "Сьогодні".toList input_str.toList then
    Except.ok (strftimeToday today)
  else
    (matchDateRe input_str.toList).elim
      (Except.error ("Некоректний формат дати: " ++ input_str))
      dateFromGroups

/- ===== Playwright interaction layer (playwright_helpers.py) =====
Each helper is embedded as a function from its environment (which bounded
waits succeed, whether the interstitial heading is present) to the trace of
side effects it performs plus its outcome.  Log texts follow the source; the
error-object interpolations of the f-strings are omitted and the ASCII quotes
of two messages are written as typographic quotes. -/

/-- One observable side effect of a page interaction. -/
inductive Act where
  | logMsg (level : Nat) (msg : String)
  | consoleMsg (msg : String)
  | waitMs (ms : Nat)
  | waitSel (sel : String) (ms : Nat)
  | scrollView (sel : String)
  | click (sel : String)
  | emit (item : OlxScraperItem)
  | closePage
deriving DecidableEq, Repr

/-- How a helper or a request stage finished: normally, or with which kind of
exception escaping it. -/
inductive Outcome where
  | ok
  | raisedIgnore (msg : String)
  | raisedTimeout
  | raisedNav
  | raisedExc
deriving DecidableEq, Repr

structure EffResult where
  acts : List Act
  outcome : Outcome
deriving DecidableEq, Repr

/-- check_403_error (playwright_helpers.py lines 17-38).  blocked is whether
page.locator("h1", has_text="403 ERROR").count() > 0.  On detection: console
print, error-level log carrying the URL, a 45 s wait, page.close(), then
IgnoreRequest; otherwise it returns with no side effects at all. -/
def check_403_error (ad_link : String) (blocked : Bool) : EffResult :=
  if blocked then
    { acts := [Act.consoleMsg ("===== Attention Blocked by CloudFront !!! URL: "
                 ++ ad_link ++ " ====="),
               Act.logMsg 40 ("===== Attention Blocked by CloudFront Next request in 5 seconds URL: "
                 ++ ad_link ++ " ====="),
               Act.waitMs 45000,
               Act.closePage],
      outcome := Outcome.raisedIgnore ("===== Blocked by CloudFront. URL: " ++ ad_link ++ " =====") }
  else
    { acts := [], outcome := Outcome.ok }

/-- scroll_to_number_of_views (playwright_helpers.py lines 54-97), the detail
readiness gate.  footerOk: the 20 s wait for the footer bar selector succeeds;
scrollOk: scroll_into_view_if_needed succeeds; userOk, descOk: the two 10 s
waits succeed.  On footer timeout it logs, closes the page and returns; the
second try block catches a timeout of any of scroll, user-name wait or
description wait (the first failure skips the rest) and only logs.  No branch
raises. -/
def scroll_to_number_of_views (footerOk scrollOk userOk descOk : Bool) : EffResult :=
  if !footerOk then
    { acts := [Act.waitSel FOOTER_BAR_SELECTOR 20000,
               Act.logMsg 40 "=== Tried to scroll into Number of Views but it is not displayed ===",
               Act.closePage],
      outcome := Outcome.ok }
  else
    { acts := [Act.waitSel FOOTER_BAR_SELECTOR 20000,
               Act.logMsg 20 "----------------===== Start to scrolling into Number of Views =====-----------------"]
        ++ (if !scrollOk then
              [Act.logMsg 40 "=== Failed to get elements User Name, Description ==="]
            else
              [Act.scrollView FOOTER_BAR_SELECTOR, Act.waitSel USER_NAME_SELECTOR 10000]
                ++ (if !userOk then
                      [Act.logMsg 40 "=== Failed to get elements User Name, Description ==="]
                    else
                      [Act.waitSel DESCRIPTION_PARTS_SELECTOR 10000]
                        ++ (if !descOk then
                              [Act.logMsg 40 "=== Failed to get elements User Name, Description ==="]
                            else
                              [Act.logMsg 20 "----------------===== Page should have loaded =====-----------------"]))),
      outcome := Outcome.ok }

/-- scroll_and_click_to_show_phone (playwright_helpers.py lines 100-143).
btnOk: the 2 s wait for the reveal button succeeds; scrollOk: the 1 s
scroll_into_view_if_needed succeeds; clickOk: the 5 s click succeeds; phoneOk:
the 3 s wait for the revealed phone element succeeds.  Only the button wait
and the phone wait are inside try blocks: a timeout of the scroll or of the
click escapes the function as PlaywrightTimeoutError. -/
def scroll_and_click_to_show_phone (btnOk scrollOk clickOk phoneOk : Bool) : EffResult :=
  if !btnOk then
    { acts := [Act.logMsg 20 "=== Start to scrolling into show phone button ===",
               Act.waitSel BTN_SHOW_PHONE_SELECTOR 2000,
               Act.logMsg 30 "=== The Show phone button is not displayed ==="],
      outcome := Outcome.ok }
  else if !scrollOk then
    { acts := [Act.logMsg 20 "=== Start to scrolling into show phone button ===",
               Act.waitSel BTN_SHOW_PHONE_SELECTOR 2000],
      outcome := Outcome.raisedTimeout }
  else if !clickOk then
    { acts := [Act.logMsg 20 "=== Start to scrolling into show phone button ===",
               Act.waitSel BTN_SHOW_PHONE_SELECTOR 2000,
               Act.scrollView BTN_SHOW_PHONE_SELECTOR,
               Act.logMsg 20 "=== End to scrolling into show phone button ==="],
      outcome := Outcome.raisedTimeout }
  else if !phoneOk then
    { acts := [Act.logMsg 20 "=== Start to scrolling into show phone button ===",
               Act.waitSel BTN_SHOW_PHONE_SELECTOR 2000,
               Act.scrollView BTN_SHOW_PHONE_SELECTOR,
               Act.logMsg 20 "=== End to scrolling into show phone button ===",
               Act.click BTN_SHOW_PHONE_SELECTOR,
               Act.logMsg 20 "=== The “Show phone” button was clicked ===",
               Act.waitSel CONTACT_PHONE_SELECTOR 3000,
               Act.logMsg 30 "=== Phone did not display successfully after clicking the “Show Phone” button ==="],
      outcome := Outcome.ok }
  else
    { acts := [Act.logMsg 20 "=== Start to scrolling into show phone button ===",
               Act.waitSel BTN_SHOW_PHONE_SELECTOR 2000,
               Act.scrollView BTN_SHOW_PHONE_SELECTOR,
               Act.logMsg 20 "=== End to scrolling into show phone button ===",
               Act.click BTN_SHOW_PHONE_SELECTOR,
               Act.logMsg 20 "=== The “Show phone” button was clicked ===",
               Act.waitSel CONTACT_PHONE_SELECTOR 3000,
               Act.logMsg 20 "=== The phone has been displayed successfully ==="],
      outcome := Outcome.ok }

/-- The environment of one detail-page request: which page interactions would
succeed, whether the interstitial is present, the markup, and the result of
the contact-phone text query on the page content read after the reveal
attempt. -/
structure DetailEnv where
  navOk : Bool := true
  blocked : Bool := false
  footerOk : Bool := true
  viewsScrollOk : Bool := true
  userNameOk : Bool := true
  descOk : Bool := true
  loadStateOk : Bool := true
  extractThrows : Bool := false
  btnOk : Bool := true
  btnScrollOk : Bool := true
  clickOk : Bool := true
  phoneOk : Bool := true
  pg : DetailPage := {}
  phoneText : Option String := none
deriving DecidableEq, Repr

structure FetchResult where
  acts : List Act
  outcome : Outcome
  records : List OlxScraperItem
deriving DecidableEq, Repr

/-- OlxSpider.parse_ad (olxspider.py lines 146-229), the callback run once the
detail page methods finished.  It extracts the fields, awaits
scroll_and_click_to_show_phone, reads the page content, fills phone_number,
logs it, yields the item and closes the page; any exception inside the try
block (a timeout escaping the reveal helper, or an extraction error, modelled
by extractThrows) is logged at error level, the page is closed, and the
exception is re-raised, so nothing is yielded. -/
def parse_ad (item : OlxScraperItem) (env : DetailEnv) : FetchResult :=
  if env.extractThrows then
    { acts := [Act.logMsg 40 "Error in parse_ad", Act.closePage],
      outcome := Outcome.raisedExc, records := [] }
  else
    let rev := scroll_and_click_to_show_phone env.btnOk env.btnScrollOk env.clickOk env.phoneOk
    match rev.outcome with
    | Outcome.ok =>
      let item3 := { extract_fields env.pg item with
                     phone_number := if truthy env.phoneText then env.phoneText else none }
      { acts := rev.acts
          ++ [Act.logMsg 20 ("Phone is " ++ env.phoneText.getD "None"),
              Act.emit item3, Act.closePage],
        outcome := Outcome.ok, records := [item3] }
    | _ =>
      { acts := rev.acts ++ [Act.logMsg 40 "Error in parse_ad", Act.closePage],
        outcome := Outcome.raisedExc, records := [] }

/- ===== request lifecycle (scrapy / scrapy-playwright dispatch) =====
The glue that sequences the pieces of one request is library behavior
(scrapy-playwright runs the playwright_page_methods of olxspider.py lines
128-141 in order and fails the request when one of them raises, scrapy then
invokes errback_close_page, olxspider.py lines 231-235); it is modelled here
with third-party semantics taken as given:
* a navigation failure fails the request before any page method runs; the
  handler, and the errback for detail requests, close the page;
* an IgnoreRequest from check_403_error fails the request (the page was
  already closed inside the helper; the detail errback calls the idempotent
  page.close() again);
* after scroll_to_number_of_views closed the page on a footer timeout, the
  next page method (wait_for_load_state) is executed against a closed page
  and raises, so the request fails and the errback closes the page again
  (a no-op);
* otherwise the callback parse_ad runs with the page attached
  (playwright_include_page is set on detail requests). -/

/-- One detail-page request end to end, olxspider.py lines 111-144 (request
construction with its page-method chain) plus parse_ad. -/
def runDetailFetch (item : OlxScraperItem) (url : String) (env : DetailEnv) : FetchResult :=
  if !env.navOk then
    { acts := [Act.closePage], outcome := Outcome.raisedNav, records := [] }
  else
    let c := check_403_error url env.blocked
    if env.blocked then
      { acts := c.acts ++ [Act.closePage], outcome := c.outcome, records := [] }
    else
      let v := scroll_to_number_of_views env.footerOk env.viewsScrollOk env.userNameOk env.descOk
      if !env.footerOk then
        { acts := c.acts ++ v.acts ++ [Act.closePage],
          outcome := Outcome.raisedExc, records := [] }
      else if !env.loadStateOk then
        { acts := c.acts ++ v.acts ++ [Act.closePage],
          outcome := Outcome.raisedTimeout, records := [] }
      else
        let p := parse_ad item env
        { acts := c.acts ++ v.acts ++ p.acts, outcome := p.outcome, records := p.records }

/-- The environment of one list-page request. -/
structure ListEnv where
  navOk : Bool := true
  blocked : Bool := false
  titleOk : Bool := true
  cards : List AdCard := []
deriving DecidableEq, Repr

/-- One list-page request end to end, olxspider.py lines 61-87 (request
construction: check_403_error, then a raw wait_for_selector on the ad-card
title anchor with a 10 s timeout and no surrounding try) plus the parse
callback.  The title wait raising aborts the page: parse never runs and no
candidates are produced.  Pages of list requests are closed by the download
handler after the response is built (no playwright_include_page here). -/
def runListFetch (urljoin : String → String) (url : String) (env : ListEnv) : FetchResult :=
  if !env.navOk then
    { acts := [Act.closePage], outcome := Outcome.raisedNav, records := [] }
  else
    let c := check_403_error url env.blocked
    if env.blocked then
      { acts := c.acts, outcome := c.outcome, records := [] }
    else if !env.titleOk then
      { acts := c.acts ++ [Act.waitSel AD_TITLE_URL_SELECTOR 10000, Act.closePage],
        outcome := Outcome.raisedTimeout, records := [] }
    else
      { acts := c.acts ++ [Act.waitSel AD_TITLE_URL_SELECTOR 10000, Act.closePage],
        outcome := Outcome.ok, records := parse urljoin env.cards }

/-- The crawl over a sequence of detail candidates: scrapy schedules each
detail request independently (CONCURRENT_REQUESTS = 1, settings.py), and the
output of the run is the concatenation of the records each request emitted.
A failed request contributes nothing and does not stop the scheduler. -/
def runDetailBatch (cands : List (OlxScraperItem × String × DetailEnv)) : List OlxScraperItem :=
  cands.flatMap (fun c => (runDetailFetch c.1 c.2.1 c.2.2).records)

/- ===================== theorems ===================== -/

/-- takeWhile and dropWhile on a list that starts with a p-true block followed
by a p-false element: the block is taken whole and the rest is untouched. -/
theorem span_app {α : Type} (p : α → Bool) (xs : List α) (y : α) (ys : List α)
    (hxs : ∀ x ∈ xs, p x = true) (hy : p y = false) :
    (xs ++ y :: ys).takeWhile p = xs ∧ (xs ++ y :: ys).dropWhile p = y :: ys := by
  induction xs with
  | nil => simp [List.takeWhile_cons, List.dropWhile_cons, hy]
  | cons a as ih =>
    have ha : p a = true := hxs a (by simp)
    have ih2 := ih (fun x hx => hxs x (by simp [hx]))
    simp [List.takeWhile_cons, List.dropWhile_cons, ha, ih2.1, ih2.2]

theorem beginsWith_self_app (ps cs : List Char) : beginsWith ps (ps ++ cs) = true := by
  induction ps with
  | nil => rfl
  | cons p ps ih => simp [beginsWith, ih]

/-- A string starting with an ASCII digit does not start with the Today
marker. -/
theorem beginsWith_today_false (d : Char) (cs : List Char) (hd : d.isDigit = true) :
    beginsWith "Сьогодні".toList (d :: cs) = false := by
  have hne : ('С' == d) = false := by
    by_cases h : d = 'С'
    · subst h; exact absurd hd (by decide)
    · exact beq_false_of_ne (fun h2 => h (h2.symm))
  simp [beginsWith, show "Сьогодні".toList = 'С' :: "ьогодні".toList from rfl, hne]

/-- The pattern matcher succeeds on any day group of one or two digits, any
nonempty class-character month group, any four-digit year group, and an
arbitrary tail after the " р." literal, and returns exactly those groups. -/
theorem matchDateRe_decomp (ds ms ys rest : List Char)
    (hds0 : ds ≠ []) (hds2 : ds.length ≤ 2) (hdsd : ∀ c ∈ ds, c.isDigit = true)
    (hms0 : ms ≠ []) (hmsu : ∀ c ∈ ms, isUkChar c = true)
    (hys : ys.length = 4) (hysd : ∀ c ∈ ys, c.isDigit = true) :
    matchDateRe (ds ++ ' ' :: (ms ++ ' ' :: (ys ++ ' ' :: 'р' :: '.' :: rest)))
      = some (ds, ms, ys) := by
  have h1 := span_app Char.isDigit ds ' ' (ms ++ ' ' :: (ys ++ ' ' :: 'р' :: '.' :: rest)) hdsd
    (by decide)
  have h2 := span_app isUkChar ms ' ' (ys ++ ' ' :: 'р' :: '.' :: rest) hmsu (by decide)
  have htake : (ys ++ ' ' :: 'р' :: '.' :: rest).take 4 = ys := by
    rw [← hys]; exact List.take_left ys _
  have hdrop : (ys ++ ' ' :: 'р' :: '.' :: rest).drop 4 = ' ' :: 'р' :: '.' :: rest := by
    rw [← hys]; exact List.drop_left ys _
  have hlen : ¬((ds.length = 0 ∨ 2 < ds.length)) := by
    push_neg
    exact ⟨fun h => hds0 (List.eq_nil_of_length_eq_zero h), hds2⟩
  have hms0' : ¬(ms.length = 0) := fun h => hms0 (List.eq_nil_of_length_eq_zero h)
  unfold matchDateRe
  rw [h1.1, h1.2]
  rw [if_neg (by simpa using hlen)]
  simp only [reStep2]
  rw [if_pos (by decide)]
  rw [h2.1, h2.2]
  rw [if_neg hms0']
  simp only [reStep3]
  rw [htake, hdrop]
  have hcond : (decide (ys.length = 4) && ys.all Char.isDigit) = true := by
    simp [hys, List.all_eq_true]; exact hysd
  rw [if_pos hcond]
  simp

/-- Every month name of the table is nonempty and consists of pattern-class
characters, so a table month placed in a well-formed date string is matched
whole by the month group. -/
theorem uk_of_mem (ms : List Char) (h : String.mk ms ∈ months_uk_values) :
    ms ≠ [] ∧ ∀ c ∈ ms, isUkChar c = true := by
  have hms : ms = (String.mk ms).data := rfl
  simp only [months_uk_values, List.mem_cons, List.not_mem_nil, or_false] at h
  rcases h with h|h|h|h|h|h|h|h|h|h|h|h <;>
    · rw [h] at hms
      rw [hms]
      decide

/-- Claim C3: parse_date returns today in "DD month YYYY р." form for inputs
starting with the Сьогодні marker; for pattern-matching inputs it returns the
captures with the day zero-padded, provided the month is in the 12-entry
table; otherwise it fails with a ValueError message naming the offending
input (non-match) or the offending month (unknown month). -/
theorem C3_parse_date (today : TodayDate) (s : String) :
    (∀ mname, beginsWith "Сьогодні".toList s.toList = true →
        months_uk today.month = some mname →
        parse_date today s
          = Except.ok (pad2Nat today.day ++ " " ++ mname ++ " "
              ++ toString today.year ++ " р.")) ∧
    (beginsWith "Сьогодні".toList s.toList = false → matchDateRe s.toList = none →
        parse_date today s = Except.error ("Некоректний формат дати: " ++ s)) ∧
    (∀ ds ms ys, beginsWith "Сьогодні".toList s.toList = false →
        matchDateRe s.toList = some (ds, ms, ys) →
        (String.mk ms ∈ months_uk_values →
            parse_date today s
              = Except.ok (zfill2 (String.mk ds) ++ " " ++ String.mk ms ++ " "
                  ++ String.mk ys ++ " р.")) ∧
        (String.mk ms ∉ months_uk_values →
            parse_date today s
              = Except.error ("Некоректний місяць у даті: " ++ String.mk ms))) := by
  refine ⟨?_, ?_, ?_⟩
  · intro mname h1 h2
    unfold parse_date
    rw [if_pos h1, strftimeToday, h2]
    rfl
  · intro h1 h2
    unfold parse_date
    rw [if_neg (by rw [h1]; exact Bool.false_ne_true), h2]
    rfl
  · intro ds ms ys h1 h2
    constructor
    · intro h3
      unfold parse_date
      rw [if_neg (by rw [h1]; exact Bool.false_ne_true), h2]
      simp only [Option.elim_some]
      unfold dateFromGroups
      rw [if_pos h3]
    · intro h3
      unfold parse_date
      rw [if_neg (by rw [h1]; exact Bool.false_ne_true), h2]
      simp only [Option.elim_some]
      unfold dateFromGroups
      rw [if_neg h3]

/-- Witness for C3 at the inputs named by the spec: the Today marker, the
"5 травня 2024 р." zero-padding example, a string failing the pattern, and a
pattern-matching string with an unknown month. -/
theorem C3_parse_date_witness :
    parse_date ⟨15, 1, 2025⟩ "Сьогодні" = Except.ok "15 січня 2025 р." ∧
    parse_date ⟨15, 1, 2025⟩ "5 травня 2024 р." = Except.ok "05 травня 2024 р." ∧
    parse_date ⟨15, 1, 2025⟩ "5 foo 2024 р."
      = Except.error "Некоректний формат дати: 5 foo 2024 р." ∧
    parse_date ⟨15, 1, 2025⟩ "5 вер 2024 р."
      = Except.error "Некоректний місяць у даті: вер" := by
  refine ⟨?_, ?_, ?_, ?_⟩
  · rw [(C3_parse_date ⟨15, 1, 2025⟩ "Сьогодні").1 "січня" rfl rfl]
    rfl
  · rw [(C3_parse_date ⟨15, 1, 2025⟩ "5 травня 2024 р.").2.2 "5".toList "травня".toList
      "2024".toList rfl rfl |>.1 (by decide)]
    rfl
  · rw [(C3_parse_date ⟨15, 1, 2025⟩ "5 foo 2024 р.").2.1 rfl rfl]
    rfl
  · rw [(C3_parse_date ⟨15, 1, 2025⟩ "5 вер 2024 р.").2.2 "5".toList "вер".toList
      "2024".toList rfl rfl |>.2 (by decide)]
    rfl

/-- Claim C9: parse_date validates only a prefix and does not range-check the
day: any day group of one or two digits (0 and 99 included), any table month,
any four digits of year followed by " р." succeed with the day zero-padded no
matter what trails the "р." literal, and any input starting with Сьогодні
returns today no matter what follows the marker. -/
theorem C9_parse_date_prefix_only (today : TodayDate) (ds ms ys rest : List Char)
    (hds0 : ds ≠ []) (hds2 : ds.length ≤ 2) (hdsd : ∀ c ∈ ds, c.isDigit = true)
    (hm : String.mk ms ∈ months_uk_values)
    (hys : ys.length = 4) (hysd : ∀ c ∈ ys, c.isDigit = true) :
    parse_date today (String.mk (ds ++ ' ' :: (ms ++ ' ' :: (ys ++ ' ' :: 'р' :: '.' :: rest))))
        = Except.ok (zfill2 (String.mk ds) ++ " " ++ String.mk ms ++ " "
            ++ String.mk ys ++ " р.") ∧
    parse_date today (String.mk ("Сьогодні".toList ++ rest))
        = Except.ok (strftimeToday today) := by
  obtain ⟨hms0, hmsu⟩ := uk_of_mem ms hm
  have hmatch := matchDateRe_decomp ds ms ys rest hds0 hds2 hdsd hms0 hmsu hys hysd
  constructor
  · obtain ⟨d, ds', hdcons⟩ : ∃ d ds', ds = d :: ds' := by
      cases ds with
      | nil => exact absurd rfl hds0
      | cons a b => exact ⟨a, b, rfl⟩
    have hpre : beginsWith "Сьогодні".toList
        (ds ++ ' ' :: (ms ++ ' ' :: (ys ++ ' ' :: 'р' :: '.' :: rest))) = false := by
      rw [hdcons]
      exact beginsWith_today_false d _ (hdsd d (by rw [hdcons]; simp))
    have htl : (String.mk (ds ++ ' ' :: (ms ++ ' ' :: (ys ++ ' ' :: 'р' :: '.' :: rest)))).toList
        = ds ++ ' ' :: (ms ++ ' ' :: (ys ++ ' ' :: 'р' :: '.' :: rest)) := rfl
    unfold parse_date
    rw [htl]
    rw [if_neg (by rw [hpre]; exact Bool.false_ne_true), hmatch]
    simp only [Option.elim_some]
    unfold dateFromGroups
    rw [if_pos hm]
  · have htl2 : (String.mk ("Сьогодні".toList ++ rest)).toList
        = "Сьогодні".toList ++ rest := rfl
    unfold parse_date
    rw [htl2]
    rw [if_pos (beginsWith_self_app _ _)]

/-- Witness for C9: day "0" with trailing text after "р." is accepted and
zero-padded, and trailing text after the Today marker is ignored. -/
theorem C9_parse_date_prefix_only_witness :
    parse_date ⟨15, 1, 2025⟩
        (String.mk ("0".toList ++ ' ' :: ("травня".toList ++ ' '
          :: ("2024".toList ++ ' ' :: 'р' :: '.' :: "xyz".toList))))
      = Except.ok (zfill2 (String.mk "0".toList) ++ " " ++ String.mk "травня".toList ++ " "
          ++ String.mk "2024".toList ++ " р.") ∧
    parse_date ⟨15, 1, 2025⟩ (String.mk ("Сьогодні".toList ++ "xyz".toList))
      = Except.ok (strftimeToday ⟨15, 1, 2025⟩) :=
  C9_parse_date_prefix_only ⟨15, 1, 2025⟩ "0".toList "травня".toList "2024".toList "xyz".toList
    (by decide) (by decide) (by decide) (by decide) (by decide) (by decide)

/-- Claim C1: a card yields a candidate item if and only if both its link href
and its title text are present and nonempty (Python truthiness); an excluded
card disappears from the result with no error, and an included item carries
the stripped resolved URL, title, and price. -/
theorem C1_extract_candidates (urljoin : String → String) (pre post : List AdCard) (card : AdCard) :
    (¬(truthy card.href = true ∧ truthy card.title = true) →
        parse urljoin (pre ++ card :: post) = parse urljoin (pre ++ post)) ∧
    (truthy card.href = true → truthy card.title = true →
        ∃ it, cardToItem urljoin card = some it ∧
          parse urljoin (pre ++ card :: post)
            = parse urljoin pre ++ it :: parse urljoin post ∧
          it.url = some (pyStrip (urljoin (card.href.getD ""))) ∧
          it.title = some (pyStrip (card.title.getD "")) ∧
          it.price = (if truthy card.price then some (pyStrip (card.price.getD "")) else none)) ∧
    ((cardToItem urljoin card).isSome = true
        ↔ (truthy card.href = true ∧ truthy card.title = true)) := by
  refine ⟨?_, ?_, ?_⟩
  · intro h
    have hnone : cardToItem urljoin card = none := by
      unfold cardToItem
      rw [if_neg (by simp only [Bool.and_eq_true]; exact h)]
    unfold parse
    rw [List.filterMap_append, List.filterMap_cons, hnone, List.filterMap_append]
  · intro h1 h2
    have hsome : cardToItem urljoin card
        = some { title := some (pyStrip (card.title.getD ""))
                 price := if truthy card.price then some (pyStrip (card.price.getD "")) else none
                 url := some (pyStrip (urljoin (card.href.getD ""))) } := by
      unfold cardToItem
      rw [if_pos (by rw [h1, h2]; rfl)]
    refine ⟨_, hsome, ?_, rfl, rfl, rfl⟩
    unfold parse
    rw [List.filterMap_append, List.filterMap_cons, hsome]
  · constructor
    · intro h
      by_cases hb : (truthy card.href && truthy card.title) = true
      · exact Bool.and_eq_true _ _ ▸ hb
      · unfold cardToItem at h
        rw [if_neg hb] at h
        exact absurd h (by simp)
    · intro ⟨h1, h2⟩
      unfold cardToItem
      rw [if_pos (by rw [h1, h2]; rfl)]
      rfl

/-- Witness for C1: a card with a link but no title is dropped from the
result; a complete card is kept with resolved absolute URL and stripped
fields. -/
theorem C1_extract_candidates_witness :
    ¬(truthy (AdCard.mk (some "/ad/1") none none).href = true
        ∧ truthy (AdCard.mk (some "/ad/1") none none).title = true) ∧
    parse (fun s => "https://www.olx.ua" ++ s)
        [AdCard.mk (some "/ad/1") none none,
         AdCard.mk (some "/ad/2") (some " Car ") (some " 100 $ ")]
      = parse (fun s => "https://www.olx.ua" ++ s)
          [AdCard.mk (some "/ad/2") (some " Car ") (some " 100 $ ")] ∧
    parse (fun s => "https://www.olx.ua" ++ s)
        [AdCard.mk (some "/ad/2") (some " Car ") (some " 100 $ ")]
      = [{ title := some "Car"
           price := some "100 $"
           url := some "https://www.olx.ua/ad/2" }] := by
  refine ⟨by decide, ?_, ?_⟩
  · exact (C1_extract_candidates (fun s => "https://www.olx.ua" ++ s)
      [] [AdCard.mk (some "/ad/2") (some " Car ") (some " 100 $ ")]
      (AdCard.mk (some "/ad/1") none none)).1 (by decide)
  · obtain ⟨it, hsome, heq, hurl, htitle, hprice⟩ :=
      (C1_extract_candidates (fun s => "https://www.olx.ua" ++ s) [] []
        (AdCard.mk (some "/ad/2") (some " Car ") (some " 100 $ "))).2.1 rfl rfl
    have hit : it = { title := some "Car"
                      price := some "100 $"
                      url := some "https://www.olx.ua/ad/2" } := by
      have h2 : some ({ title := some "Car"
                        price := some "100 $"
                        url := some "https://www.olx.ua/ad/2" } : OlxScraperItem) = some it := by
        rw [← hsome]
        decide
      exact (Option.some_inj.mp h2).symm
    have h1 : parse (fun s => "https://www.olx.ua" ++ s)
        [AdCard.mk (some "/ad/2") (some " Car ") (some " 100 $ ")]
      = parse (fun s => "https://www.olx.ua" ++ s) []
          ++ it :: parse (fun s => "https://www.olx.ua" ++ s) [] := heq
    rw [h1, hit]
    rfl

/-- Counterexample to C2 as stated: the publication-date field is a matched
text field that is stored verbatim, not whitespace-trimmed. -/
theorem C2_extract_detail_counterexample :
    (extract_fields { ad_pub_date_q := some " 10 січня 2025 р. " } {}).ad_pub_date
        = some " 10 січня 2025 р. " ∧
    pyStrip " 10 січня 2025 р. " ≠ " 10 січня 2025 р. " :=
  ⟨rfl, by decide⟩

/-- Claim C2 (amended): extract_fields computes every field from its own query
result alone and never fails: an unmatched field is stored absent; the
user-name and user-registration fields are stripped when nonempty; the
publication date, last-seen and announcement id are stored verbatim and the
user score and view counter verbatim-when-nonempty (not trimmed); the
description space-joins the stripped nonempty text nodes; the image list is
the concatenation of the srcs of all photo blocks; the location joins the
stripped nonempty sibling text nodes and is stripped; an all-unmatched page
leaves every detail field absent. -/
theorem C2_extract_detail_amended (pg : DetailPage) (item : OlxScraperItem) :
    (extract_fields pg item).ad_pub_date = pg.ad_pub_date_q ∧
    (extract_fields pg item).user_name
      = pg.user_name_q.bind (fun s => if s = "" then none else some (pyStrip s)) ∧
    (extract_fields pg item).user_score
      = pg.user_score_q.bind (fun s => if s = "" then none else some s) ∧
    (extract_fields pg item).user_registration
      = pg.user_registration_q.bind (fun s => if s = "" then none else some (pyStrip s)) ∧
    (extract_fields pg item).user_last_seen = pg.user_last_seen_q ∧
    (extract_fields pg item).announcement_id = pg.ad_id_q ∧
    (extract_fields pg item).announcement_view_counter
      = pg.ad_view_counter_q.bind (fun s => if s = "" then none else some s) ∧
    (extract_fields pg item).ad_tags = pg.ad_tags_q ∧
    (extract_fields pg item).img_src_list = pg.photo_blocks_q.flatten ∧
    (extract_fields pg item).description
      = (fun d => if d = "" then none else some d)
          (joinSp ((pg.description_parts_q.filter (fun p => !(p == ""))).map pyStrip)) ∧
    (extract_fields pg item).location
      = (fun l => if l = "" then none else some (pyStrip l))
          (joinSp ((pg.location_parts_q.filter (fun l => !(l == ""))).map pyStrip)) ∧
    extract_fields {} item
      = { item with
          ad_pub_date := none
          user_name := none
          user_score := none
          user_registration := none
          user_last_seen := none
          announcement_id := none
          announcement_view_counter := none
          location := none
          ad_tags := []
          description := none
          img_src_list := [] } := by
  refine ⟨rfl, ?_, ?_, ?_, rfl, rfl, ?_, rfl, rfl, ?_, ?_, rfl⟩
  · cases hq : pg.user_name_q with
    | none => simp [extract_fields, truthy, hq]
    | some s =>
      by_cases hs : s = "" <;> simp [extract_fields, truthy, hq, hs]
  · cases hq : pg.user_score_q with
    | none => simp [extract_fields, truthy, hq]
    | some s =>
      by_cases hs : s = "" <;> simp [extract_fields, truthy, hq, hs]
  · cases hq : pg.user_registration_q with
    | none => simp [extract_fields, truthy, hq]
    | some s =>
      by_cases hs : s = "" <;> simp [extract_fields, truthy, hq, hs]
  · cases hq : pg.ad_view_counter_q with
    | none => simp [extract_fields, truthy, hq]
    | some s =>
      by_cases hs : s = "" <;> simp [extract_fields, truthy, hq, hs]
  · by_cases hd : joinSp ((pg.description_parts_q.filter (fun p => !(p == ""))).map pyStrip) = ""
      <;> simp [extract_fields, hd]
  · by_cases hl : joinSp ((pg.location_parts_q.filter (fun l => !(l == ""))).map pyStrip) = ""
      <;> simp [extract_fields, hl]

/-- parse_ad emits nothing, or exactly the extracted item with the phone
filled in. -/
theorem parse_ad_records (item : OlxScraperItem) (env : DetailEnv) :
    (parse_ad item env).records = [] ∨
    (parse_ad item env).records
      = [{ extract_fields env.pg item with
           phone_number := if truthy env.phoneText then env.phoneText else none }] := by
  by_cases hx : env.extractThrows = true
  · left; simp [parse_ad, hx]
  · cases ho : (scroll_and_click_to_show_phone env.btnOk env.btnScrollOk
        env.clickOk env.phoneOk).outcome with
    | ok => right; simp [parse_ad, hx, ho]
    | raisedIgnore m => left; simp [parse_ad, hx, ho]
    | raisedTimeout => left; simp [parse_ad, hx, ho]
    | raisedNav => left; simp [parse_ad, hx, ho]
    | raisedExc => left; simp [parse_ad, hx, ho]

/-- A detail request emits nothing, or what parse_ad emits. -/
theorem runDetailFetch_records (item : OlxScraperItem) (url : String) (env : DetailEnv) :
    (runDetailFetch item url env).records = [] ∨
    (runDetailFetch item url env).records = (parse_ad item env).records := by
  unfold runDetailFetch
  split
  · left; rfl
  · split
    · left; rfl
    · split
      · left; rfl
      · split
        · left; rfl
        · right; rfl

/-- Claim C10: the detail stage never modifies the list-stage fields: title,
price and url pass unchanged through extract_fields, and any record a detail
request emits carries exactly the title, price and url of the item built on
the list page. -/
theorem C10_frame_list_fields (pg : DetailPage) (item : OlxScraperItem) (url : String)
    (env : DetailEnv) (r : OlxScraperItem) :
    ((extract_fields pg item).title = item.title ∧
     (extract_fields pg item).price = item.price ∧
     (extract_fields pg item).url = item.url) ∧
    (r ∈ (runDetailFetch item url env).records →
      r.title = item.title ∧ r.price = item.price ∧ r.url = item.url) := by
  refine ⟨⟨rfl, rfl, rfl⟩, ?_⟩
  intro hr
  rcases runDetailFetch_records item url env with h | h
  · rw [h] at hr
    exact absurd hr (List.not_mem_nil r)
  · rw [h] at hr
    rcases parse_ad_records item env with h2 | h2
    · rw [h2] at hr
      exact absurd hr (List.not_mem_nil r)
    · rw [h2] at hr
      rcases List.mem_singleton.mp hr with rfl
      exact ⟨rfl, rfl, rfl⟩

/-- Witness for C10 at a concrete emitted record. -/
theorem C10_frame_list_fields_witness :
    ({ extract_fields ({} : DetailPage)
          { title := some "T", price := some "P", url := some "U" } with
       phone_number := some "123" } : OlxScraperItem).title = some "T" ∧
    ({ extract_fields ({} : DetailPage)
          { title := some "T", price := some "P", url := some "U" } with
       phone_number := some "123" } : OlxScraperItem).price = some "P" ∧
    ({ extract_fields ({} : DetailPage)
          { title := some "T", price := some "P", url := some "U" } with
       phone_number := some "123" } : OlxScraperItem).url = some "U" :=
  (C10_frame_list_fields {} { title := some "T", price := some "P", url := some "U" } "u"
      { phoneText := some "123" }
      { extract_fields ({} : DetailPage)
          { title := some "T", price := some "P", url := some "U" } with
        phone_number := some "123" }).2 (by decide)

/-- Counterexample to C5 as stated: a timeout of the scroll-into-view (or of
the click) is NOT tolerated: scroll_and_click_to_show_phone raises a
PlaywrightTimeoutError there, so not every branch is non-fatal. -/
theorem C5_reveal_phone_counterexample :
    (scroll_and_click_to_show_phone true false true true).outcome = Outcome.raisedTimeout ∧
    (scroll_and_click_to_show_phone true true false true).outcome = Outcome.raisedTimeout :=
  ⟨rfl, rfl⟩

/-- Claim C5 (amended): when the reveal button does not appear within its
bounded wait the helper logs and returns normally and never clicks; a timeout
of the revealed-phone wait after a successful click is also tolerated; but a
timeout of the scroll-into-view or of the click itself escapes the function
(only the two waits are inside try blocks), aborting that candidate. -/
theorem C5_reveal_phone_amended (s c p : Bool) :
    (scroll_and_click_to_show_phone false s c p
      = { acts := [Act.logMsg 20 "=== Start to scrolling into show phone button ===",
                   Act.waitSel BTN_SHOW_PHONE_SELECTOR 2000,
                   Act.logMsg 30 "=== The Show phone button is not displayed ==="],
          outcome := Outcome.ok }) ∧
    (∀ sel, Act.click sel ∉ (scroll_and_click_to_show_phone false s c p).acts) ∧
    ((scroll_and_click_to_show_phone true true true p).outcome = Outcome.ok) ∧
    (s = false → (scroll_and_click_to_show_phone true s c p).outcome = Outcome.raisedTimeout) ∧
    (c = false → (scroll_and_click_to_show_phone true true c p).outcome = Outcome.raisedTimeout) := by
  refine ⟨rfl, ?_, ?_, ?_, ?_⟩
  · intro sel
    simp [scroll_and_click_to_show_phone]
  · cases p <;> rfl
  · intro h
    subst h
    rfl
  · intro h
    subst h
    rfl

/-- Witness for C5 (amended) at concrete flag settings. -/
theorem C5_reveal_phone_amended_witness :
    (scroll_and_click_to_show_phone true false true true).outcome = Outcome.raisedTimeout ∧
    (scroll_and_click_to_show_phone true true false false).outcome = Outcome.raisedTimeout ∧
    (Act.click BTN_SHOW_PHONE_SELECTOR ∉ (scroll_and_click_to_show_phone false true true true).acts) := by
  refine ⟨(C5_reveal_phone_amended false true true).2.2.2.1 rfl,
    (C5_reveal_phone_amended true false false).2.2.2.2 rfl,
    (C5_reveal_phone_amended true true true).2.1 BTN_SHOW_PHONE_SELECTOR⟩

/-- Counterexample to C4 as stated: on a footer-wait timeout the helper also
closes the page (playwright_helpers.py line 82), so the candidate is NOT
continued with partial content: the fetch emits no record, although the same
environment with the footer present emits one. -/
theorem C4_detail_gate_counterexample :
    (runDetailFetch { title := some "T", price := some "P", url := some "U" } "u"
        { footerOk := false, phoneText := some "1" }).records = [] ∧
    (runDetailFetch { title := some "T", price := some "P", url := some "U" } "u"
        { phoneText := some "1" }).records ≠ [] := by
  exact ⟨rfl, by decide⟩

/-- Claim C4 (amended): a footer-marker timeout makes
scroll_to_number_of_views log, close the page and return without raising (the
helper never raises), but the candidate is then abandoned: the closed page
makes the rest of the request fail and the fetch yields no record; a list-page
title-marker timeout raises and aborts that page with no candidates; on footer
success the helper scrolls the marker into view and runs the bounded user-name
and description waits, tolerating their timeouts without closing the page. -/
theorem C4_detail_gate_amended (so uo dk : Bool) (item : OlxScraperItem) (url : String)
    (env : DetailEnv) (urljoin : String → String) (lenv : ListEnv) :
    (scroll_to_number_of_views false so uo dk
      = { acts := [Act.waitSel FOOTER_BAR_SELECTOR 20000,
                   Act.logMsg 40 "=== Tried to scroll into Number of Views but it is not displayed ===",
                   Act.closePage],
          outcome := Outcome.ok }) ∧
    ((scroll_to_number_of_views true so uo dk).outcome = Outcome.ok) ∧
    (env.navOk = true → env.blocked = false → env.footerOk = false →
        (runDetailFetch item url env).records = []) ∧
    (lenv.navOk = true → lenv.blocked = false → lenv.titleOk = false →
        (runListFetch urljoin url lenv).outcome = Outcome.raisedTimeout
          ∧ (runListFetch urljoin url lenv).records = []) ∧
    (so = true → Act.scrollView FOOTER_BAR_SELECTOR ∈ (scroll_to_number_of_views true so uo dk).acts
        ∧ Act.waitSel USER_NAME_SELECTOR 10000 ∈ (scroll_to_number_of_views true so uo dk).acts) ∧
    (so = true → uo = true →
        Act.waitSel DESCRIPTION_PARTS_SELECTOR 10000 ∈ (scroll_to_number_of_views true so uo dk).acts) ∧
    (Act.closePage ∉ (scroll_to_number_of_views true so uo dk).acts) := by
  refine ⟨rfl, rfl, ?_, ?_, ?_, ?_, ?_⟩
  · intro h1 h2 h3
    simp [runDetailFetch, h1, h2, h3]
  · intro h1 h2 h3
    constructor <;> simp [runListFetch, h1, h2, h3]
  · intro h
    subst h
    cases uo <;> cases dk <;> simp [scroll_to_number_of_views]
  · intro h1 h2
    subst h1
    subst h2
    cases dk <;> simp [scroll_to_number_of_views]
  · cases so <;> cases uo <;> cases dk <;> simp [scroll_to_number_of_views]

/-- Witness for C4 (amended) at concrete environments. -/
theorem C4_detail_gate_amended_witness :
    (runDetailFetch { title := some "T", price := some "P", url := some "U" } "u"
        { footerOk := false }).records = [] ∧
    (runListFetch (fun s => s) "u" { titleOk := false }).outcome = Outcome.raisedTimeout ∧
    Act.scrollView FOOTER_BAR_SELECTOR ∈ (scroll_to_number_of_views true true true true).acts ∧
    Act.waitSel DESCRIPTION_PARTS_SELECTOR 10000 ∈ (scroll_to_number_of_views true true true true).acts := by
  refine ⟨?_, ?_, ?_, ?_⟩
  · exact (C4_detail_gate_amended true true true { title := some "T", price := some "P", url := some "U" }
      "u" { footerOk := false } (fun s => s) {}).2.2.1 rfl rfl rfl
  · exact ((C4_detail_gate_amended true true true {} "u" {} (fun s => s) { titleOk := false }).2.2.2.1 rfl rfl rfl).1
  · exact ((C4_detail_gate_amended true true true {} "u" {} (fun s => s) {}).2.2.2.2.1 rfl).1
  · exact (C4_detail_gate_amended true true true {} "u" {} (fun s => s) {}).2.2.2.2.2.1 rfl rfl

/-- Claim C6: with no interstitial heading check_403_error returns ok with no
side effects; with it present it prints, logs at level 40 a message carrying
the request URL, waits the fixed 45 s cooldown, closes the page and raises
IgnoreRequest; a blocked detail request yields zero records and dropping it
leaves the rest of the batch unchanged. -/
theorem C6_check_blocked (url : String) (item : OlxScraperItem) (env : DetailEnv)
    (pre post : List (OlxScraperItem × String × DetailEnv))
    (cand : OlxScraperItem × String × DetailEnv) :
    (check_403_error url false = { acts := [], outcome := Outcome.ok }) ∧
    (check_403_error url true
      = { acts := [Act.consoleMsg ("===== Attention Blocked by CloudFront !!! URL: "
                      ++ url ++ " ====="),
                   Act.logMsg 40 ("===== Attention Blocked by CloudFront Next request in 5 seconds URL: "
                      ++ url ++ " ====="),
                   Act.waitMs 45000,
                   Act.closePage],
          outcome := Outcome.raisedIgnore ("===== Blocked by CloudFront. URL: "
                      ++ url ++ " =====") }) ∧
    (env.blocked = true → (runDetailFetch item url env).records = []) ∧
    (cand.2.2.blocked = true →
        runDetailBatch (pre ++ cand :: post) = runDetailBatch pre ++ runDetailBatch post) := by
  refine ⟨rfl, rfl, ?_, ?_⟩
  · intro h
    by_cases hn : env.navOk = true <;> simp [runDetailFetch, h, hn]
  · intro h
    have hrec : (runDetailFetch cand.1 cand.2.1 cand.2.2).records = [] := by
      by_cases hn : cand.2.2.navOk = true <;> simp [runDetailFetch, h, hn]
    unfold runDetailBatch
    rw [List.flatMap_append, List.flatMap_cons, hrec]
    simp

/-- Witness for C6: a concrete blocked detail request yields no records, and a
batch with a blocked middle candidate equals the batch of the others. -/
theorem C6_check_blocked_witness :
    (runDetailFetch { title := some "T" } "https://x/ad" { blocked := true }).records = [] ∧
    runDetailBatch
        [({ title := some "A" }, "u1", { phoneText := some "1" }),
         ({ title := some "B" }, "u2", { blocked := true }),
         ({ title := some "C" }, "u3", { phoneText := some "3" })]
      = runDetailBatch [({ title := some "A" }, "u1", { phoneText := some "1" })]
          ++ runDetailBatch [({ title := some "C" }, "u3", { phoneText := some "3" })] := by
  constructor
  · exact (C6_check_blocked "https://x/ad" { title := some "T" } { blocked := true } [] []
      (({ title := some "T" } : OlxScraperItem), "u", ({} : DetailEnv))).2.2.1 rfl
  · exact (C6_check_blocked "u2" {} {} [({ title := some "A" }, "u1", { phoneText := some "1" })]
      [({ title := some "C" }, "u3", { phoneText := some "3" })]
      (({ title := some "B" } : OlxScraperItem), "u2",
        ({ blocked := true } : DetailEnv))).2.2.2 rfl

/-- The reveal helper never emits an item. -/
theorem scac_no_emit (b s c p : Bool) (r : OlxScraperItem) :
    Act.emit r ∉ (scroll_and_click_to_show_phone b s c p).acts := by
  cases b <;> cases s <;> cases c <;> cases p <;> simp [scroll_and_click_to_show_phone]

/-- Claim C7: a record is emitted only after the phone-reveal interaction has
returned: the reveal helper itself never emits, any emit in the parse_ad trace
happens strictly after the whole reveal trace (and only when the reveal
returned normally), and a record with the phone absent is valid ok output. -/
theorem C7_emit_after_reveal (item : OlxScraperItem) (env : DetailEnv) (r : OlxScraperItem) :
    (Act.emit r ∉ (scroll_and_click_to_show_phone env.btnOk env.btnScrollOk
        env.clickOk env.phoneOk).acts) ∧
    (Act.emit r ∈ (parse_ad item env).acts →
      env.extractThrows = false ∧
      (scroll_and_click_to_show_phone env.btnOk env.btnScrollOk
          env.clickOk env.phoneOk).outcome = Outcome.ok ∧
      (parse_ad item env).acts
        = (scroll_and_click_to_show_phone env.btnOk env.btnScrollOk
              env.clickOk env.phoneOk).acts
          ++ [Act.logMsg 20 ("Phone is " ++ env.phoneText.getD "None"),
              Act.emit r, Act.closePage]) ∧
    (env.extractThrows = false → env.btnOk = false → env.phoneText = none →
      (parse_ad item env).records
          = [{ extract_fields env.pg item with phone_number := none }]
        ∧ (parse_ad item env).outcome = Outcome.ok) := by
  refine ⟨scac_no_emit _ _ _ _ r, ?_, ?_⟩
  · intro hmem
    by_cases hx : env.extractThrows = true
    · exfalso
      simp [parse_ad, hx] at hmem
    · cases ho : (scroll_and_click_to_show_phone env.btnOk env.btnScrollOk
          env.clickOk env.phoneOk).outcome with
      | ok =>
        refine ⟨by simpa using hx, rfl, ?_⟩
        simp only [parse_ad, hx, Bool.false_eq_true, if_false, ho] at hmem ⊢
        rcases List.mem_append.mp hmem with hin | hin
        · exact absurd hin (scac_no_emit _ _ _ _ r)
        · simp only [List.mem_cons, List.not_mem_nil, or_false] at hin
          rcases hin with hin | hin | hin
          · exact absurd hin (by simp)
          · have hr : r = { extract_fields env.pg item with
                phone_number := if truthy env.phoneText then env.phoneText else none } := by
              have := hin
              simp only [Act.emit.injEq] at this
              exact this
            rw [hr]
          · exact absurd hin (by simp)
      | raisedIgnore m =>
        exfalso
        have hin : Act.emit r ∈ (scroll_and_click_to_show_phone env.btnOk env.btnScrollOk
            env.clickOk env.phoneOk).acts := by
          simpa [parse_ad, hx, ho] using hmem
        exact absurd hin (scac_no_emit env.btnOk env.btnScrollOk env.clickOk env.phoneOk r)
      | raisedTimeout =>
        exfalso
        have hin : Act.emit r ∈ (scroll_and_click_to_show_phone env.btnOk env.btnScrollOk
            env.clickOk env.phoneOk).acts := by
          simpa [parse_ad, hx, ho] using hmem
        exact absurd hin (scac_no_emit env.btnOk env.btnScrollOk env.clickOk env.phoneOk r)
      | raisedNav =>
        exfalso
        have hin : Act.emit r ∈ (scroll_and_click_to_show_phone env.btnOk env.btnScrollOk
            env.clickOk env.phoneOk).acts := by
          simpa [parse_ad, hx, ho] using hmem
        exact absurd hin (scac_no_emit env.btnOk env.btnScrollOk env.clickOk env.phoneOk r)
      | raisedExc =>
        exfalso
        have hin : Act.emit r ∈ (scroll_and_click_to_show_phone env.btnOk env.btnScrollOk
            env.clickOk env.phoneOk).acts := by
          simpa [parse_ad, hx, ho] using hmem
        exact absurd hin (scac_no_emit env.btnOk env.btnScrollOk env.clickOk env.phoneOk r)
  · intro h1 h2 h3
    constructor
    · simp [parse_ad, h1, h2, scroll_and_click_to_show_phone, h3, truthy]
    · simp [parse_ad, h1, h2, scroll_and_click_to_show_phone]

/-- Witness for C7 at a concrete detail environment: the emitted record sits
after the full reveal trace, and with the reveal button absent the record is
still emitted, with no phone. -/
theorem C7_emit_after_reveal_witness :
    Act.emit ({ extract_fields ({} : DetailPage) { title := some "T" } with
        phone_number := none } : OlxScraperItem)
      ∉ (scroll_and_click_to_show_phone true true true true).acts ∧
    (parse_ad { title := some "T" } {}).acts
      = (scroll_and_click_to_show_phone true true true true).acts
        ++ [Act.logMsg 20 "Phone is None",
            Act.emit { extract_fields ({} : DetailPage) { title := some "T" } with
              phone_number := none },
            Act.closePage] ∧
    (parse_ad { title := some "T" } { btnOk := false }).records
      = [{ extract_fields ({} : DetailPage) { title := some "T" } with
           phone_number := none }] := by
  refine ⟨(C7_emit_after_reveal { title := some "T" } {}
      { extract_fields ({} : DetailPage) { title := some "T" } with
        phone_number := none }).1,
    ((C7_emit_after_reveal { title := some "T" } {}
      { extract_fields ({} : DetailPage) { title := some "T" } with
        phone_number := none }).2.1 (by decide)).2.2,
    ((C7_emit_after_reveal { title := some "T" } { btnOk := false }
      { extract_fields ({} : DetailPage) { title := some "T" } with
        phone_number := none }).2.2 rfl rfl rfl).1⟩

/-- parse_ad closes the page on both its exit paths. -/
theorem parse_ad_close (item : OlxScraperItem) (env : DetailEnv) :
    Act.closePage ∈ (parse_ad item env).acts := by
  by_cases hx : env.extractThrows = true
  · simp [parse_ad, hx]
  · cases ho : (scroll_and_click_to_show_phone env.btnOk env.btnScrollOk
        env.clickOk env.phoneOk).outcome <;> simp [parse_ad, hx, ho]

/-- Claim C8: every exit path of a detail fetch and of a list fetch closes the
browser page: navigation failure, block detection, footer-gate failure,
load-state failure, extraction error and successful emission all contain a
page.close() in their trace. -/
theorem C8_page_always_closed (item : OlxScraperItem) (url : String) (env : DetailEnv)
    (urljoin : String → String) (url2 : String) (lenv : ListEnv) :
    Act.closePage ∈ (runDetailFetch item url env).acts ∧
    Act.closePage ∈ (runListFetch urljoin url2 lenv).acts := by
  constructor
  · by_cases hn : env.navOk = true
    · by_cases hb : env.blocked = true
      · simp [runDetailFetch, hn, hb]
      · by_cases hf : env.footerOk = true
        · by_cases hl : env.loadStateOk = true
          · simp [runDetailFetch, hn, hb, hf, hl, parse_ad_close]
          · simp [runDetailFetch, hn, hb, hf, hl]
        · simp [runDetailFetch, hn, hb, hf]
    · simp [runDetailFetch, hn]
  · by_cases hn : lenv.navOk = true
    · by_cases hb : lenv.blocked = true
      · simp [runListFetch, hn, hb, check_403_error]
      · by_cases ht : lenv.titleOk = true
        · simp [runListFetch, hn, hb, ht]
        · simp [runListFetch, hn, hb, ht]
    · simp [runListFetch, hn]
